import Mathlib

/-!
# QtScrcpy recorder: a verification development

Shallow embedding of `QtScrcpy/recorder/recorder.cpp` (class `Recorder`), the
MP4 recording session of QtScrcpy, together with the properties of its
specification.

The recorder drives the libavformat muxing library.  The library is not part
of the repository; it is modelled here by a small abstract machine:

* a heap of output contexts (`AVFormatContext`), addressed by index, each cell
  remembering whether `avformat_free_context` has been called on it;
* the byte-sink of a context (`AVFormatContext.pb`), which is null, open or
  closed;
* a trace of the library calls made so far, with their arguments and results.

What each call does to a context follows the description of the session in
the specification: allocation creates a context, track creation adds a track
to it, opening and closing act on its byte-sink, freeing releases it.

The result of every library call that can fail is a parameter of the
operation that makes it (`OpenOutcome`, `WriteOutcome`, the trailer result of
`close`), so that a theorem quantifying over those parameters speaks about
every behaviour of the library.  A call that dereferences a null pointer or a
context that has already been freed has no defined behaviour in C++; the
model stops there with a `Fault` that names the attempted call.

The lifetime of the extradata buffer is not part of the model.  The call
`free(extradata)` of line 157 is recorded in the trace and the track keeps the
pointer, as in the source; that `avformat_free_context` (line 159) then
releases the same buffer a second time is not represented.  What is stated
about the branch of lines 155-160 therefore speaks of the calls that are made
and of the lifetime of the context and of the byte-sink only.

Diagnostics (`qCritical`, `qInfo`) never influence control flow and are not
part of the trace.  Of the two code paths selected by `LAVF_NEW_CODEC_API` the
one for the current API (`AVStream.codecpar`) is modelled; the two differ
only in the name of the structure holding the fields.
-/

namespace QtScrcpy

/-! ## Data model -/

/-- Rational number of libavutil (`AVRational`), a pair of C `int`s. -/
structure AVRational where
  num : Int
  den : Int
deriving DecidableEq, Repr

/-- Source line 15: `static const AVRational SCRCPY_TIME_BASE = {1, 1000000};` -/
def SCRCPY_TIME_BASE : AVRational := { num := 1, den := 1000000 }

/-- Size of a frame (`QSize`), with accessors `width()` and `height()`. -/
structure QSize where
  width : Int
  height : Int
deriving DecidableEq, Repr

/-- Codec descriptor; only `id` is read by the recorder. -/
structure AVCodec where
  id : Nat
deriving DecidableEq, Repr

/-- Registered output format; only `name` is read by the recorder. -/
structure AVOutputFormat where
  name : String
  long_name : String
deriving DecidableEq, Repr

/-- Media types of libavutil (`enum AVMediaType`). -/
inductive AVMediaType where
  | AVMEDIA_TYPE_UNKNOWN
  | AVMEDIA_TYPE_VIDEO
  | AVMEDIA_TYPE_AUDIO
deriving DecidableEq, Repr

/-- Pixel formats of libavutil (`enum AVPixelFormat`), as far as needed. -/
inductive AVPixelFormat where
  | AV_PIX_FMT_NONE
  | AV_PIX_FMT_YUV420P
  | AV_PIX_FMT_OTHER (n : Nat)
deriving DecidableEq, Repr

/-- Codec parameters of a track (`AVCodecParameters`). -/
structure AVCodecParameters where
  codec_type : AVMediaType
  codec_id : Nat
  format : AVPixelFormat
  width : Int
  height : Int
  extradata : Option (List Nat)
  extradata_size : Int
deriving DecidableEq, Repr

/-- Output track (`AVStream`). -/
structure AVStream where
  codecpar : AVCodecParameters
  time_base : AVRational
deriving DecidableEq, Repr

/-- State of the byte-sink pointer `AVFormatContext.pb`. -/
inductive AVIOContext where
  | null
  | opened (url : String)
  | closed (url : String)
deriving DecidableEq, Repr

/-- Output context (`AVFormatContext`). -/
structure AVFormatContext where
  oformat : Option AVOutputFormat
  streams : List AVStream
  pb : AVIOContext
deriving DecidableEq, Repr

/-- Encoded packet handed to `write` (`AVPacket`): payload, its size, timestamps. -/
structure AVPacket where
  data : List Nat
  size : Int
  pts : Int
  dts : Int
  duration : Int
deriving DecidableEq, Repr

/-- Heap cell of an output context: its contents and whether it has been freed. -/
structure Cell where
  obj : AVFormatContext
  freed : Bool
deriving DecidableEq, Repr

/-- Library and allocator calls made by the recorder, in the order of the trace. -/
inductive Event where
  | avformat_alloc_context (result : Option Nat)
  | avformat_new_stream (ctx : Nat) (ok : Bool)
  | avio_open (ctx : Nat) (url : String) (ret : Int)
  | av_malloc (size : Int) (ok : Bool)
  | avformat_write_header (ctx : Nat) (arg : AVFormatContext) (ret : Int)
  | free_extradata
  | avio_close (ctx : Nat)
  | avformat_free_context (ctx : Nat)
  | av_write_frame (ctx : Nat) (pkt : AVPacket) (ret : Int)
  | av_write_trailer (ctx : Nat) (ret : Int)
deriving DecidableEq, Repr

/-- Ways in which a call leaves defined behaviour; `call` names the attempted call. -/
inductive Fault where
  | nullPointer (call : String)
  | useAfterFree (call : String)
  | invalidPointer (call : String)
  | noStream (call : String)
  | doubleClose (call : String)
  | outOfBounds (call : String)
deriving DecidableEq, Repr

/-- The members of `Recorder` together with the state of the muxing library. -/
structure State where
  m_fileName : String
  m_declaredFrameSize : QSize
  m_formatCtx : Option Nat
  m_headerWritten : Bool
  muxers : List AVOutputFormat
  heap : List Cell
  trace : List Event
deriving DecidableEq, Repr

/-- Results of the library calls made by one call of `open`. -/
structure OpenOutcome where
  allocOk : Bool
  streamOk : Bool
  time_base : AVRational
  avioRet : Int
deriving DecidableEq, Repr

/-- Results of the library calls made by one call of `write`. -/
structure WriteOutcome where
  mallocOk : Bool
  headerRet : Int
  headerTimeBase : AVRational
  frameRet : Int
deriving DecidableEq, Repr

/-! ## The muxing library -/

/-- Address and contents of the live context behind the pointer `p`, for the
    call `call`; a null, dangling or freed pointer is a fault. -/
def derefCtx (call : String) (p : Option Nat) (s : State) :
    Except Fault (Nat × AVFormatContext) :=
  match p with
  | none => .error (.nullPointer call)
  | some i =>
    match s.heap[i]? with
    | none => .error (.invalidPointer call)
    | some c => if c.freed then .error (.useAfterFree call) else .ok (i, c.obj)

/-- Store new contents into the live context at address `i`. -/
def storeCtx (i : Nat) (obj : AVFormatContext) (s : State) : State :=
  { s with heap := s.heap.set i { obj := obj, freed := false } }

/-- Append an event to the trace. -/
def emit (e : Event) (s : State) : State :=
  { s with trace := s.trace ++ [e] }

/-- Model of `avformat_alloc_context()`: a fresh context with no format, no
    track and no byte-sink, or null. -/
def avformat_alloc_context (ok : Bool) (s : State) : Option Nat × State :=
  if ok then
    let p := s.heap.length
    (some p, emit (.avformat_alloc_context (some p))
      { s with heap := s.heap ++ [{ obj := { oformat := none, streams := [], pb := .null },
                                     freed := false }] })
  else
    (none, emit (.avformat_alloc_context none) s)

/-- Parameters of a newly created track, before the recorder fills them in. -/
def defaultCodecpar : AVCodecParameters :=
  { codec_type := .AVMEDIA_TYPE_UNKNOWN, codec_id := 0, format := .AV_PIX_FMT_NONE,
    width := 0, height := 0, extradata := none, extradata_size := 0 }

/-- Model of `avformat_new_stream(ctx, codec)`: appends a track and returns its
    index, or returns null and leaves the context unchanged. -/
def avformat_new_stream (ok : Bool) (tb : AVRational) (p : Option Nat) (s : State) :
    Except Fault (Option Nat × State) := do
  let (i, ctx) ← derefCtx "avformat_new_stream" p s
  if ok then
    let st : AVStream := { codecpar := defaultCodecpar, time_base := tb }
    pure (some ctx.streams.length,
      emit (.avformat_new_stream i true) (storeCtx i { ctx with streams := ctx.streams ++ [st] } s))
  else
    pure (none, emit (.avformat_new_stream i false) s)

/-- Model of `avio_open(&ctx->pb, url, AVIO_FLAG_WRITE)`: on a non-negative
    result the byte-sink of the context is open. -/
def avio_open (ret : Int) (p : Option Nat) (url : String) (s : State) :
    Except Fault (Int × State) := do
  let (i, ctx) ← derefCtx "avio_open" p s
  if ret < 0 then
    pure (ret, emit (.avio_open i url ret) s)
  else
    pure (ret, emit (.avio_open i url ret) (storeCtx i { ctx with pb := .opened url } s))

/-- Model of `avio_close(ctx->pb)`: closes an open byte-sink, does nothing on a
    null one; closing a closed one is a fault. -/
def avio_close (p : Option Nat) (s : State) : Except Fault State := do
  let (i, ctx) ← derefCtx "avio_close" p s
  match ctx.pb with
  | .null => pure (emit (.avio_close i) s)
  | .opened url => pure (emit (.avio_close i) (storeCtx i { ctx with pb := .closed url } s))
  | .closed _ => .error (.doubleClose "avio_close")

/-- Model of `avformat_free_context(ctx)`: the context is released. -/
def avformat_free_context (p : Option Nat) (s : State) : Except Fault State := do
  let (i, ctx) ← derefCtx "avformat_free_context" p s
  pure (emit (.avformat_free_context i)
    { s with heap := s.heap.set i { obj := ctx, freed := true } })

/-- The tracks with the time base chosen by the muxer. -/
def setTimeBase (tb : AVRational) (streams : List AVStream) : List AVStream :=
  streams.map (fun st => { st with time_base := tb })

/-- Model of `avformat_write_header(ctx, NULL)`: the call sees the context as it
    is at that moment; on success the muxer fixes the time base of the tracks. -/
def avformat_write_header (ret : Int) (tb : AVRational) (p : Option Nat) (s : State) :
    Except Fault (Int × State) := do
  let (i, ctx) ← derefCtx "avformat_write_header" p s
  if ret < 0 then
    pure (ret, emit (.avformat_write_header i ctx ret) s)
  else
    pure (ret, emit (.avformat_write_header i ctx ret)
      (storeCtx i { ctx with streams := setTimeBase tb ctx.streams } s))

/-- Model of `av_write_frame(ctx, packet)`. -/
def av_write_frame (ret : Int) (p : Option Nat) (packet : AVPacket) (s : State) :
    Except Fault (Int × State) := do
  let (i, _) ← derefCtx "av_write_frame" p s
  pure (ret, emit (.av_write_frame i packet ret) s)

/-- Model of `av_write_trailer(ctx)`. -/
def av_write_trailer (ret : Int) (p : Option Nat) (s : State) : Except Fault (Int × State) := do
  let (i, _) ← derefCtx "av_write_trailer" p s
  pure (ret, emit (.av_write_trailer i ret) s)

/-- Conversion of a C `int` to `size_t`, taken to be 64 bits wide: a negative
    value wraps around.  Line 138 converts `packet->size` this way when it
    multiplies it by `sizeof(quint8)`, line 144 when it passes it to `memcpy`. -/
def toSizeT (n : Int) : Int :=
  if 0 ≤ n then n else n + 2 ^ 64

/-- Reduction of an integer to the range of a signed 64-bit integer. -/
def wrapInt64 (x : Int) : Int :=
  (x + 2 ^ 63) % 2 ^ 64 - 2 ^ 63

/-- Modelled from the spec: the rounding rule of the library's rescale primitive,
    which is not part of the repository: the quotient `n / d` rounded to the
    nearest integer, ties resolved away from zero. -/
def divRoundNearAwayFromZero (n d : Int) : Int :=
  if 0 ≤ n then (n + d / 2) / d else -((-n + d / 2) / d)

/-- Modelled from the spec: the exact value of the library's rescale primitive,
    `timestamp * fromBase.num * toBase.den / (fromBase.den * toBase.num)` rounded
    to nearest with ties away from zero. -/
def rescaleExact (timestamp : Int) (fromBase toBase : AVRational) : Int :=
  divRoundNearAwayFromZero (timestamp * (fromBase.num * toBase.den)) (fromBase.den * toBase.num)

/-- Modelled from the spec: the library primitive `av_rescale_q`, whose result is
    a signed 64-bit integer. -/
def av_rescale_q (timestamp : Int) (fromBase toBase : AVRational) : Int :=
  wrapInt64 (rescaleExact timestamp fromBase toBase)

/-- Modelled from the spec: the library primitive `av_packet_rescale_ts`, applied
    independently to the presentation and decode timestamps and to the
    duration if present. -/
def av_packet_rescale_ts (packet : AVPacket) (src dst : AVRational) : AVPacket :=
  { packet with
    pts := av_rescale_q packet.pts src dst
    dts := av_rescale_q packet.dts src dst
    duration := if 0 < packet.duration then av_rescale_q packet.duration src dst
                else packet.duration }

/-! ## The recorder -/

/-- Loop of `Recorder::findMp4Muxer` (lines 124-131): `do { outFormat =
    av_muxer_iterate(&cursor); } while (outFormat && strcmp(outFormat->name, "mp4"));`
    The argument is the state of the iteration, the registered formats that
    `av_muxer_iterate` has not returned yet; at the end of the registry it
    returns null. -/
def findMp4MuxerLoop : List AVOutputFormat → Option AVOutputFormat
  | [] => none
  | outFormat :: rest =>
    if outFormat.name ≠ "mp4" then findMp4MuxerLoop rest else some outFormat

/-- `Recorder::findMp4Muxer` (lines 118-133). -/
def findMp4Muxer (muxers : List AVOutputFormat) : Option AVOutputFormat :=
  findMp4MuxerLoop muxers

/-- Modelled from the spec: the constructor `Recorder::Recorder(fileName)`
    (lines 17-21) with the member initialisers of `recorder.h`, which is not
    among the sources: a new session holds no output context and has not
    written its header.  The library starts with the registry `muxers`, an
    empty heap and an empty trace. -/
def Recorder.new (fileName : String) (muxers : List AVOutputFormat) : State :=
  { m_fileName := fileName, m_declaredFrameSize := { width := -1, height := -1 },
    m_formatCtx := none, m_headerWritten := false,
    muxers := muxers, heap := [], trace := [] }

/-- `Recorder::setFrameSize` (lines 28-31). -/
def Recorder.setFrameSize (declaredFrameSize : QSize) (s : State) : State :=
  { s with m_declaredFrameSize := declaredFrameSize }

/-- The assignments of lines 62-66 to the parameters of the new track. -/
def setCodecpar (inputCodec : AVCodec) (size : QSize) (cp : AVCodecParameters) :
    AVCodecParameters :=
  { cp with
    codec_type := .AVMEDIA_TYPE_VIDEO
    codec_id := inputCodec.id
    format := .AV_PIX_FMT_YUV420P
    width := size.width
    height := size.height }

/-- Update of the track `k` of the context behind `p` (`outStream->codecpar->...`). -/
def updateStream (call : String) (p : Option Nat) (k : Nat) (f : AVStream → AVStream)
    (s : State) : Except Fault State := do
  let (i, ctx) ← derefCtx call p s
  match ctx.streams[k]? with
  | none => .error (.noStream call)
  | some st => pure (storeCtx i { ctx with streams := ctx.streams.set k (f st) } s)

/-- `Recorder::open` (lines 33-88). -/
def Recorder.open (o : OpenOutcome) (inputCodec : AVCodec) (s : State) :
    Except Fault (Bool × State) :=
  match findMp4Muxer s.muxers with
  | none => pure (false, s)
  | some mp4 =>
    let r := avformat_alloc_context o.allocOk s
    let s1 := { r.2 with m_formatCtx := r.1 }
    match s1.m_formatCtx with
    | none => pure (false, s1)
    | some _ => do
      let (i, ctx) ← derefCtx "oformat" s1.m_formatCtx s1
      let s2 := storeCtx i { ctx with oformat := some mp4 } s1
      let (outStream, s3) ← avformat_new_stream o.streamOk o.time_base s2.m_formatCtx s2
      match outStream with
      | none => do
        let s4 ← avformat_free_context s3.m_formatCtx s3
        pure (false, { s4 with m_formatCtx := none })
      | some k => do
        let s4 ← updateStream "codecpar" s3.m_formatCtx k
          (fun st => { st with codecpar := setCodecpar inputCodec s3.m_declaredFrameSize st.codecpar })
          s3
        let (ret, s5) ← avio_open o.avioRet s4.m_formatCtx s4.m_fileName s4
        if ret < 0 then do
          let s6 ← avformat_free_context s5.m_formatCtx s5
          pure (false, { s6 with m_formatCtx := none })
        else
          pure (true, s5)

/-- `Recorder::close` (lines 90-103). -/
def Recorder.close (trailerRet : Int) (s : State) : Except Fault State :=
  match s.m_formatCtx with
  | none => pure s
  | some _ => do
    let (_, s1) ← av_write_trailer trailerRet s.m_formatCtx s
    let s2 ← avio_close s1.m_formatCtx s1
    let s3 ← avformat_free_context s2.m_formatCtx s2
    pure { s3 with m_formatCtx := none }

/-- `Recorder::recorderWriteHeader` (lines 135-163).  The `memcpy` of line 144
    reads `packet->size` bytes, converted to `size_t`, from the payload; reading
    past the end of the payload is a fault. -/
def Recorder.recorderWriteHeader (o : WriteOutcome) (packet : AVPacket) (s : State) :
    Except Fault (Bool × State) := do
  let (i, ctx) ← derefCtx "streams[0]" s.m_formatCtx s
  match ctx.streams with
  | [] => .error (.noStream "streams[0]")
  | ostream :: rest =>
    let s1 := emit (.av_malloc (toSizeT packet.size) o.mallocOk) s
    if !o.mallocOk then
      pure (false, s1)
    else if (packet.data.length : Int) < toSizeT packet.size then
      .error (.outOfBounds "memcpy")
    else
      let extradata := packet.data.take (toSizeT packet.size).toNat
      let ostream1 := { ostream with codecpar :=
        { ostream.codecpar with extradata := some extradata, extradata_size := packet.size } }
      let s2 := storeCtx i { ctx with streams := ostream1 :: rest } s1
      let (ret, s3) ← avformat_write_header o.headerRet o.headerTimeBase s2.m_formatCtx s2
      if ret < 0 then do
        let s4 := emit .free_extradata s3
        let s5 ← avio_close s4.m_formatCtx s4
        let s6 ← avformat_free_context s5.m_formatCtx s5
        pure (false, s6)
      else
        pure (true, s3)

/-- `Recorder::recorderRescalePacket` (lines 165-169). -/
def Recorder.recorderRescalePacket (packet : AVPacket) (s : State) : Except Fault AVPacket := do
  let (_, ctx) ← derefCtx "streams[0]" s.m_formatCtx s
  match ctx.streams with
  | [] => .error (.noStream "streams[0]")
  | ostream :: _ => pure (av_packet_rescale_ts packet SCRCPY_TIME_BASE ostream.time_base)

/-- Lines 114-115 of `Recorder::write`: rescale the packet and hand it to the muxer. -/
def Recorder.writeFrame (o : WriteOutcome) (packet : AVPacket) (s : State) :
    Except Fault (Bool × AVPacket × State) := do
  let packet1 ← Recorder.recorderRescalePacket packet s
  let (ret, s1) ← av_write_frame o.frameRet s.m_formatCtx packet1 s
  pure (decide (0 ≤ ret), packet1, s1)

/-- `Recorder::write` (lines 105-116); the packet is rescaled in place, so it is
    returned together with the result. -/
def Recorder.write (o : WriteOutcome) (packet : AVPacket) (s : State) :
    Except Fault (Bool × AVPacket × State) :=
  if !s.m_headerWritten then do
    let (ok, s1) ← Recorder.recorderWriteHeader o packet s
    if !ok then
      pure (false, packet, s1)
    else
      Recorder.writeFrame o packet { s1 with m_headerWritten := true }
  else
    Recorder.writeFrame o packet s

/-- The track with the payload of `packet` installed as extradata (lines 144-148). -/
def withExtradata (packet : AVPacket) (ostream : AVStream) : AVStream :=
  { ostream with codecpar :=
    { ostream.codecpar with extradata := some (packet.data.take (toSizeT packet.size).toNat),
                            extradata_size := packet.size } }

/-! ## Observations on traces and runs -/

/-- The event is a call of `avformat_write_header`, whatever its result. -/
def isHeaderCall : Event → Bool
  | .avformat_write_header _ _ _ => true
  | _ => false

/-- The event is a call of `avformat_write_header` that returned success. -/
def isHeaderSuccess : Event → Bool
  | .avformat_write_header _ _ ret => decide (0 ≤ ret)
  | _ => false

/-- Number of header serialization calls in a trace. -/
def headerCalls (tr : List Event) : Nat :=
  tr.countP isHeaderCall

/-- Number of successful header serializations in a trace. -/
def headerSuccesses (tr : List Event) : Nat :=
  tr.countP isHeaderSuccess

/-- A sequence of `write` calls, each with the results of its library calls.
    A call that faults ends the run: nothing after it has a defined meaning. -/
def writeAll : List (WriteOutcome × AVPacket) → State → State
  | [], s => s
  | (o, packet) :: rest, s =>
    match Recorder.write o packet s with
    | .ok (_, _, s1) => writeAll rest s1
    | .error _ => s

/-- A run from a new session: the constructor, `setFrameSize`, `open`, then the
    `write` calls of `ws`. -/
def runSession (fileName : String) (muxers : List AVOutputFormat) (size : QSize)
    (o : OpenOutcome) (codec : AVCodec) (ws : List (WriteOutcome × AVPacket)) : State :=
  match Recorder.open o codec (Recorder.setFrameSize size (Recorder.new fileName muxers)) with
  | .ok (_, s1) => writeAll ws s1
  | .error _ => Recorder.setFrameSize size (Recorder.new fileName muxers)

/-- The byte-sink behind `pb` is open. -/
def sinkOpen : AVIOContext → Bool
  | .opened _ => true
  | _ => false

/-- Every output context of the heap is allocated exactly when its byte-sink is open. -/
def SinkMatchesContext (s : State) : Prop :=
  ∀ c ∈ s.heap, sinkOpen c.obj.pb = !c.freed

/-- States a session can be in when a call returns: starting from a new
    session, any sequence of `setFrameSize`, `open`, `write` and `close` calls
    that return, with any results of the library calls they make. -/
inductive Reachable : State → Prop where
  | fresh (fileName : String) (muxers : List AVOutputFormat) :
      Reachable (Recorder.new fileName muxers)
  | afterSetFrameSize {s : State} (size : QSize) :
      Reachable s → Reachable (Recorder.setFrameSize size s)
  | afterOpen {s s' : State} {b : Bool} (o : OpenOutcome) (codec : AVCodec) :
      Reachable s → Recorder.open o codec s = .ok (b, s') → Reachable s'
  | afterWrite {s s' : State} {b : Bool} {packet' : AVPacket} (o : WriteOutcome) (packet : AVPacket) :
      Reachable s → Recorder.write o packet s = .ok (b, packet', s') → Reachable s'
  | afterClose {s s' : State} (r : Int) :
      Reachable s → Recorder.close r s = .ok s' → Reachable s'

/-! ## Concrete inputs -/

/-- A registry with two formats named `mp4`, after one that is not. -/
def exampleMuxers : List AVOutputFormat :=
  [{ name := "matroska", long_name := "Matroska" },
   { name := "mp4", long_name := "MP4 (MPEG-4 Part 14)" },
   { name := "mp4", long_name := "a later format of the same name" }]

/-- A new session for `out.mp4` with the frame size 1280x720 declared. -/
def exampleSession : State :=
  Recorder.setFrameSize { width := 1280, height := 720 } (Recorder.new "out.mp4" exampleMuxers)

/-- Codec descriptor with the identifier of H.264 (`AV_CODEC_ID_H264 = 27`). -/
def h264 : AVCodec := { id := 27 }

/-- Library results with which `open` succeeds. -/
def openOk : OpenOutcome :=
  { allocOk := true, streamOk := true, time_base := { num := 0, den := 1 }, avioRet := 0 }

/-- Library results with which the header and the frame are written. -/
def writeOk : WriteOutcome :=
  { mallocOk := true, headerRet := 0, headerTimeBase := { num := 1, den := 90000 }, frameRet := 0 }

/-- Library results where the muxer rejects the header (`AVERROR(EINVAL) = -22`). -/
def headerRejected : WriteOutcome :=
  { mallocOk := true, headerRet := -22, headerTimeBase := { num := 1, den := 90000 }, frameRet := 0 }

/-- Library results where the allocation of the extradata fails. -/
def mallocFails : WriteOutcome :=
  { mallocOk := false, headerRet := 0, headerTimeBase := { num := 1, den := 90000 }, frameRet := 0 }

/-- A first packet with a payload of four bytes. -/
def examplePacket : AVPacket :=
  { data := [0, 0, 0, 1], size := 4, pts := 0, dts := 0, duration := 0 }

/-- The session `exampleSession` after a successful `open`. -/
def exampleOpened : State :=
  { exampleSession with
    m_formatCtx := some 0
    heap := [{ obj := { oformat := some { name := "mp4", long_name := "MP4 (MPEG-4 Part 14)" },
                        streams := [{ codecpar := setCodecpar h264 { width := 1280, height := 720 } defaultCodecpar,
                                      time_base := { num := 0, den := 1 } }],
                        pb := .opened "out.mp4" },
               freed := false }]
    trace := [.avformat_alloc_context (some 0), .avformat_new_stream 0 true,
              .avio_open 0 "out.mp4" 0] }

/-- The session `exampleOpened` with its header written and the time base of its
    track fixed to 1/90000 by the muxer. -/
def exampleHeaderWritten : State :=
  { exampleOpened with
    m_headerWritten := true
    heap := [{ obj := { oformat := some { name := "mp4", long_name := "MP4 (MPEG-4 Part 14)" },
                        streams := [{ (withExtradata examplePacket
                          { codecpar := setCodecpar h264 { width := 1280, height := 720 } defaultCodecpar,
                            time_base := { num := 0, den := 1 } }) with
                          time_base := { num := 1, den := 90000 } }],
                        pb := .opened "out.mp4" },
               freed := false }]
    trace := exampleOpened.trace ++
      [.av_malloc 4 true,
       .avformat_write_header 0
         { oformat := some { name := "mp4", long_name := "MP4 (MPEG-4 Part 14)" },
           streams := [withExtradata examplePacket
             { codecpar := setCodecpar h264 { width := 1280, height := 720 } defaultCodecpar,
               time_base := { num := 0, den := 1 } }],
           pb := .opened "out.mp4" } 0,
       .av_write_frame 0 (av_packet_rescale_ts examplePacket SCRCPY_TIME_BASE
         { num := 1, den := 90000 }) 0] }

/-- The state of `exampleOpened` after a first `write` whose header is rejected:
    the byte-sink is closed, the context freed, and `m_formatCtx` still holds
    its address. -/
def exampleHeaderFailed : State :=
  { exampleOpened with
    heap := [{ obj := { oformat := some { name := "mp4", long_name := "MP4 (MPEG-4 Part 14)" },
                        streams := [withExtradata examplePacket
                          { codecpar := setCodecpar h264 { width := 1280, height := 720 } defaultCodecpar,
                            time_base := { num := 0, den := 1 } }],
                        pb := .closed "out.mp4" },
               freed := true }]
    trace := exampleOpened.trace ++
      [.av_malloc 4 true,
       .avformat_write_header 0
         { oformat := some { name := "mp4", long_name := "MP4 (MPEG-4 Part 14)" },
           streams := [withExtradata examplePacket
             { codecpar := setCodecpar h264 { width := 1280, height := 720 } defaultCodecpar,
               time_base := { num := 0, den := 1 } }],
           pb := .opened "out.mp4" } (-22),
       .free_extradata, .avio_close 0, .avformat_free_context 0] }

/-- The header flag bounds the successful header serializations of the trace. -/
def HeaderOnce (s : State) : Prop :=
  headerSuccesses s.trace ≤ 1 ∧ (s.m_headerWritten = false → headerSuccesses s.trace = 0)

/-! ## Effect of each operation, branch by branch -/

theorem getElem?_lt {α : Type} {l : List α} {i : Nat} {a : α} (h : l[i]? = some a) :
    i < l.length :=
  (List.getElem?_eq_some.mp h).1

theorem open_notFound (o : OpenOutcome) (codec : AVCodec) (s : State)
    (hm : findMp4Muxer s.muxers = none) :
    Recorder.open o codec s = .ok (false, s) := by
  simp [Recorder.open, hm, pure, Except.pure]

theorem open_allocFail (o : OpenOutcome) (codec : AVCodec) (s : State) (mp4 : AVOutputFormat)
    (hm : findMp4Muxer s.muxers = some mp4) (ha : o.allocOk = false) :
    Recorder.open o codec s = .ok (false,
      { s with m_formatCtx := none, trace := s.trace ++ [.avformat_alloc_context none] }) := by
  simp [Recorder.open, hm, avformat_alloc_context, ha, emit, pure, Except.pure]

theorem open_streamFail (o : OpenOutcome) (codec : AVCodec) (s : State) (mp4 : AVOutputFormat)
    (hm : findMp4Muxer s.muxers = some mp4) (ha : o.allocOk = true) (hs : o.streamOk = false) :
    Recorder.open o codec s = .ok (false,
      { s with
        m_formatCtx := none
        heap := s.heap ++ [{ obj := { oformat := some mp4, streams := [], pb := .null },
                             freed := true }]
        trace := s.trace ++ [.avformat_alloc_context (some s.heap.length),
                             .avformat_new_stream s.heap.length false,
                             .avformat_free_context s.heap.length] }) := by
  simp [Recorder.open, hm, avformat_alloc_context, ha, hs, derefCtx, emit, storeCtx,
    avformat_new_stream, avformat_free_context, bind, Except.bind, pure, Except.pure]

theorem open_avioFail (o : OpenOutcome) (codec : AVCodec) (s : State) (mp4 : AVOutputFormat)
    (hm : findMp4Muxer s.muxers = some mp4) (ha : o.allocOk = true) (hs : o.streamOk = true)
    (hr : o.avioRet < 0) :
    Recorder.open o codec s = .ok (false,
      { s with
        m_formatCtx := none
        heap := s.heap ++ [{ obj := { oformat := some mp4,
                                      streams := [{ codecpar := setCodecpar codec s.m_declaredFrameSize defaultCodecpar,
                                                    time_base := o.time_base }],
                                      pb := .null },
                             freed := true }]
        trace := s.trace ++ [.avformat_alloc_context (some s.heap.length),
                             .avformat_new_stream s.heap.length true,
                             .avio_open s.heap.length s.m_fileName o.avioRet,
                             .avformat_free_context s.heap.length] }) := by
  simp [Recorder.open, hm, avformat_alloc_context, ha, hs, derefCtx, emit, storeCtx,
    avformat_new_stream, updateStream, avio_open, avformat_free_context, bind, Except.bind, pure,
    Except.pure, hr]

theorem open_success (o : OpenOutcome) (codec : AVCodec) (s : State) (mp4 : AVOutputFormat)
    (hm : findMp4Muxer s.muxers = some mp4) (ha : o.allocOk = true) (hs : o.streamOk = true)
    (hr : 0 ≤ o.avioRet) :
    Recorder.open o codec s = .ok (true,
      { s with
        m_formatCtx := some s.heap.length
        heap := s.heap ++ [{ obj := { oformat := some mp4,
                                      streams := [{ codecpar := setCodecpar codec s.m_declaredFrameSize defaultCodecpar,
                                                    time_base := o.time_base }],
                                      pb := .opened s.m_fileName },
                             freed := false }]
        trace := s.trace ++ [.avformat_alloc_context (some s.heap.length),
                             .avformat_new_stream s.heap.length true,
                             .avio_open s.heap.length s.m_fileName o.avioRet] }) := by
  simp [Recorder.open, hm, avformat_alloc_context, ha, hs, derefCtx, emit, storeCtx,
    avformat_new_stream, updateStream, avio_open, bind, Except.bind, pure, Except.pure,
    not_lt.mpr hr]

theorem close_null (r : Int) (s : State) (h : s.m_formatCtx = none) :
    Recorder.close r s = .ok s := by
  simp [Recorder.close, h, pure, Except.pure]

theorem close_live (r : Int) (s : State) (i : Nat) (ctx : AVFormatContext) (url : String)
    (hp : s.m_formatCtx = some i) (hc : s.heap[i]? = some { obj := ctx, freed := false })
    (hb : ctx.pb = .opened url) :
    Recorder.close r s = .ok
      { s with
        m_formatCtx := none
        heap := s.heap.set i { obj := { ctx with pb := .closed url }, freed := true }
        trace := s.trace ++ [.av_write_trailer i r, .avio_close i, .avformat_free_context i] } := by
  have hlt := getElem?_lt hc
  simp [Recorder.close, hp, av_write_trailer, avio_close, avformat_free_context, derefCtx, hc, hb,
    emit, storeCtx, bind, Except.bind, pure, Except.pure, hlt]

theorem writeHeader_mallocFail (o : WriteOutcome) (packet : AVPacket) (s : State) (i : Nat)
    (ctx : AVFormatContext) (ostream : AVStream) (rest : List AVStream)
    (hp : s.m_formatCtx = some i) (hc : s.heap[i]? = some { obj := ctx, freed := false })
    (hs : ctx.streams = ostream :: rest) (hm : o.mallocOk = false) :
    Recorder.recorderWriteHeader o packet s =
      .ok (false, { s with trace := s.trace ++ [.av_malloc (toSizeT packet.size) false] }) := by
  simp [Recorder.recorderWriteHeader, hp, derefCtx, hc, hs, hm, emit, bind, Except.bind, pure,
    Except.pure]

theorem writeHeader_success (o : WriteOutcome) (packet : AVPacket) (s : State) (i : Nat)
    (ctx : AVFormatContext) (ostream : AVStream) (rest : List AVStream)
    (hp : s.m_formatCtx = some i) (hc : s.heap[i]? = some { obj := ctx, freed := false })
    (hs : ctx.streams = ostream :: rest) (hm : o.mallocOk = true)
    (hfit : toSizeT packet.size ≤ packet.data.length) (hr : 0 ≤ o.headerRet) :
    Recorder.recorderWriteHeader o packet s =
      .ok (true,
        { s with
          heap := s.heap.set i
            { obj := { ctx with
                       streams := setTimeBase o.headerTimeBase (withExtradata packet ostream :: rest) },
              freed := false }
          trace := s.trace ++ [.av_malloc (toSizeT packet.size) true,
            .avformat_write_header i { ctx with streams := withExtradata packet ostream :: rest }
              o.headerRet] }) := by
  have hlt := getElem?_lt hc
  simp [Recorder.recorderWriteHeader, hp, derefCtx, hc, hs, hm, emit, storeCtx,
    avformat_write_header, withExtradata, bind, Except.bind, pure, Except.pure, hlt,
    not_lt.mpr hr, not_lt.mpr hfit]

theorem writeHeader_headerFail (o : WriteOutcome) (packet : AVPacket) (s : State) (i : Nat)
    (ctx : AVFormatContext) (ostream : AVStream) (rest : List AVStream) (url : String)
    (hp : s.m_formatCtx = some i) (hc : s.heap[i]? = some { obj := ctx, freed := false })
    (hs : ctx.streams = ostream :: rest) (hb : ctx.pb = .opened url)
    (hm : o.mallocOk = true) (hfit : toSizeT packet.size ≤ packet.data.length)
    (hr : o.headerRet < 0) :
    Recorder.recorderWriteHeader o packet s =
      .ok (false,
        { s with
          heap := s.heap.set i
            { obj := { ctx with streams := withExtradata packet ostream :: rest,
                                pb := .closed url },
              freed := true }
          trace := s.trace ++ [.av_malloc (toSizeT packet.size) true,
            .avformat_write_header i { ctx with streams := withExtradata packet ostream :: rest }
              o.headerRet,
            .free_extradata, .avio_close i, .avformat_free_context i] }) := by
  have hlt := getElem?_lt hc
  simp [Recorder.recorderWriteHeader, hp, derefCtx, hc, hs, hm, hb, emit, storeCtx,
    avformat_write_header, avio_close, avformat_free_context, withExtradata, bind, Except.bind,
    pure, Except.pure, hlt, hr, not_lt.mpr hfit]

theorem writeFrame_live (o : WriteOutcome) (packet : AVPacket) (s : State) (i : Nat)
    (ctx : AVFormatContext) (ostream : AVStream) (rest : List AVStream)
    (hp : s.m_formatCtx = some i) (hc : s.heap[i]? = some { obj := ctx, freed := false })
    (hs : ctx.streams = ostream :: rest) :
    Recorder.writeFrame o packet s =
      .ok (decide (0 ≤ o.frameRet),
        av_packet_rescale_ts packet SCRCPY_TIME_BASE ostream.time_base,
        { s with trace := s.trace ++
            [.av_write_frame i (av_packet_rescale_ts packet SCRCPY_TIME_BASE ostream.time_base)
              o.frameRet] }) := by
  simp [Recorder.writeFrame, Recorder.recorderRescalePacket, av_write_frame, hp, derefCtx, hc, hs,
    emit, bind, Except.bind, pure, Except.pure]

theorem write_headerWritten (o : WriteOutcome) (packet : AVPacket) (s : State) (i : Nat)
    (ctx : AVFormatContext) (ostream : AVStream) (rest : List AVStream)
    (hp : s.m_formatCtx = some i) (hc : s.heap[i]? = some { obj := ctx, freed := false })
    (hs : ctx.streams = ostream :: rest) (hw : s.m_headerWritten = true) :
    Recorder.write o packet s =
      .ok (decide (0 ≤ o.frameRet),
        av_packet_rescale_ts packet SCRCPY_TIME_BASE ostream.time_base,
        { s with trace := s.trace ++
            [.av_write_frame i (av_packet_rescale_ts packet SCRCPY_TIME_BASE ostream.time_base)
              o.frameRet] }) := by
  simp [Recorder.write, hw, writeFrame_live o packet s i ctx ostream rest hp hc hs]

theorem write_mallocFail (o : WriteOutcome) (packet : AVPacket) (s : State) (i : Nat)
    (ctx : AVFormatContext) (ostream : AVStream) (rest : List AVStream)
    (hp : s.m_formatCtx = some i) (hc : s.heap[i]? = some { obj := ctx, freed := false })
    (hs : ctx.streams = ostream :: rest) (hw : s.m_headerWritten = false)
    (hm : o.mallocOk = false) :
    Recorder.write o packet s =
      .ok (false, packet, { s with trace := s.trace ++ [.av_malloc (toSizeT packet.size) false] }) := by
  simp [Recorder.write, hw, writeHeader_mallocFail o packet s i ctx ostream rest hp hc hs hm,
    bind, Except.bind, pure, Except.pure]

theorem write_headerFail (o : WriteOutcome) (packet : AVPacket) (s : State) (i : Nat)
    (ctx : AVFormatContext) (ostream : AVStream) (rest : List AVStream) (url : String)
    (hp : s.m_formatCtx = some i) (hc : s.heap[i]? = some { obj := ctx, freed := false })
    (hs : ctx.streams = ostream :: rest) (hb : ctx.pb = .opened url)
    (hw : s.m_headerWritten = false) (hm : o.mallocOk = true)
    (hfit : toSizeT packet.size ≤ packet.data.length) (hr : o.headerRet < 0) :
    Recorder.write o packet s =
      .ok (false, packet,
        { s with
          heap := s.heap.set i
            { obj := { ctx with streams := withExtradata packet ostream :: rest,
                                pb := .closed url },
              freed := true }
          trace := s.trace ++ [.av_malloc (toSizeT packet.size) true,
            .avformat_write_header i { ctx with streams := withExtradata packet ostream :: rest }
              o.headerRet,
            .free_extradata, .avio_close i, .avformat_free_context i] }) := by
  simp [Recorder.write, hw,
    writeHeader_headerFail o packet s i ctx ostream rest url hp hc hs hb hm hfit hr,
    bind, Except.bind, pure, Except.pure]

theorem write_headerSuccess (o : WriteOutcome) (packet : AVPacket) (s : State) (i : Nat)
    (ctx : AVFormatContext) (ostream : AVStream) (rest : List AVStream)
    (hp : s.m_formatCtx = some i) (hc : s.heap[i]? = some { obj := ctx, freed := false })
    (hs : ctx.streams = ostream :: rest) (hw : s.m_headerWritten = false)
    (hm : o.mallocOk = true) (hfit : toSizeT packet.size ≤ packet.data.length)
    (hr : 0 ≤ o.headerRet) :
    Recorder.write o packet s =
      .ok (decide (0 ≤ o.frameRet),
        av_packet_rescale_ts packet SCRCPY_TIME_BASE o.headerTimeBase,
        { s with
          m_headerWritten := true
          heap := s.heap.set i
            { obj := { ctx with
                       streams := setTimeBase o.headerTimeBase (withExtradata packet ostream :: rest) },
              freed := false }
          trace := s.trace ++ [.av_malloc (toSizeT packet.size) true,
            .avformat_write_header i { ctx with streams := withExtradata packet ostream :: rest }
              o.headerRet,
            .av_write_frame i (av_packet_rescale_ts packet SCRCPY_TIME_BASE o.headerTimeBase)
              o.frameRet] }) := by
  have hlt := getElem?_lt hc
  rw [Recorder.write]
  simp only [hw, writeHeader_success o packet s i ctx ostream rest hp hc hs hm hfit hr]
  simp [bind, Except.bind]
  rw [writeFrame_live o packet _ i
    { ctx with streams := setTimeBase o.headerTimeBase (withExtradata packet ostream :: rest) }
    { withExtradata packet ostream with time_base := o.headerTimeBase }
    (setTimeBase o.headerTimeBase rest) (by simpa using hp) (by simp [hlt])
    (by simp [setTimeBase])]
  simp

theorem derefCtx_ok {call : String} {p : Option Nat} {s : State} {i : Nat}
    {ctx : AVFormatContext} (h : derefCtx call p s = .ok (i, ctx)) :
    p = some i ∧ s.heap[i]? = some { obj := ctx, freed := false } := by
  unfold derefCtx at h
  cases p with
  | none => simp at h
  | some j =>
    cases hj : s.heap[j]? with
    | none => simp [hj] at h
    | some c =>
      cases hf : c.freed with
      | true => simp [hj, hf] at h
      | false =>
        obtain ⟨obj, freed⟩ := c
        simp only at hf
        subst hf
        simp [hj] at h
        obtain ⟨h1, h2⟩ := h
        subst h1; subst h2
        exact ⟨rfl, hj⟩

theorem write_ok_live {o : WriteOutcome} {packet : AVPacket} {s : State}
    {r : Bool × AVPacket × State} (h : Recorder.write o packet s = .ok r) :
    ∃ i ctx ostream rest, s.m_formatCtx = some i ∧
      s.heap[i]? = some { obj := ctx, freed := false } ∧ ctx.streams = ostream :: rest := by
  cases hd : derefCtx "streams[0]" s.m_formatCtx s with
  | error e =>
    exfalso
    cases hw : s.m_headerWritten <;>
      simp [Recorder.write, Recorder.writeFrame, Recorder.recorderRescalePacket,
        Recorder.recorderWriteHeader, hw, hd, bind, Except.bind] at h
  | ok v =>
    obtain ⟨i, ctx⟩ := v
    obtain ⟨h1, h2⟩ := derefCtx_ok hd
    cases hs : ctx.streams with
    | nil =>
      exfalso
      cases hw : s.m_headerWritten <;>
        simp [Recorder.write, Recorder.writeFrame, Recorder.recorderRescalePacket,
          Recorder.recorderWriteHeader, hw, hd, hs, bind, Except.bind] at h
    | cons ostream rest => exact ⟨i, ctx, ostream, rest, h1, h2, hs⟩

theorem close_ok_live {r : Int} {s s' : State} (h : Recorder.close r s = .ok s') :
    s.m_formatCtx = none ∨
    ∃ i ctx, s.m_formatCtx = some i ∧ s.heap[i]? = some { obj := ctx, freed := false } := by
  cases hp : s.m_formatCtx with
  | none => exact Or.inl rfl
  | some i =>
    right
    cases hd : derefCtx "av_write_trailer" (some i) s with
    | error e =>
      exfalso
      simp [Recorder.close, hp, av_write_trailer, hd, bind, Except.bind] at h
    | ok v =>
      obtain ⟨j, ctx⟩ := v
      obtain ⟨h1, h2⟩ := derefCtx_ok hd
      cases h1
      exact ⟨i, ctx, rfl, h2⟩

theorem close_closedSink (r : Int) (s : State) (i : Nat) (ctx : AVFormatContext) (url : String)
    (hp : s.m_formatCtx = some i) (hc : s.heap[i]? = some { obj := ctx, freed := false })
    (hb : ctx.pb = .closed url) :
    Recorder.close r s = .error (.doubleClose "avio_close") := by
  simp [Recorder.close, hp, av_write_trailer, avio_close, derefCtx, hc, hb,
    emit, bind, Except.bind, pure, Except.pure]

theorem close_nullSink (r : Int) (s : State) (i : Nat) (ctx : AVFormatContext)
    (hp : s.m_formatCtx = some i) (hc : s.heap[i]? = some { obj := ctx, freed := false })
    (hb : ctx.pb = .null) :
    Recorder.close r s = .ok
      { s with
        m_formatCtx := none
        heap := s.heap.set i { obj := ctx, freed := true }
        trace := s.trace ++ [.av_write_trailer i r, .avio_close i, .avformat_free_context i] } := by
  have hlt := getElem?_lt hc
  simp [Recorder.close, hp, av_write_trailer, avio_close, avformat_free_context, derefCtx, hc, hb,
    emit, bind, Except.bind, pure, Except.pure]

/-! ## Format resolver -/

theorem findMp4MuxerLoop_none (l : List AVOutputFormat) :
    findMp4MuxerLoop l = none ↔ ∀ f ∈ l, f.name ≠ "mp4" := by
  induction l with
  | nil => simp [findMp4MuxerLoop]
  | cons a l ih =>
    by_cases ha : a.name = "mp4"
    · simp [findMp4MuxerLoop, ha]
    · simp [findMp4MuxerLoop, ha, ih]

theorem findMp4MuxerLoop_some (l : List AVOutputFormat) (f : AVOutputFormat) :
    findMp4MuxerLoop l = some f ↔
      ∃ before after, l = before ++ f :: after ∧ f.name = "mp4" ∧
        ∀ g ∈ before, g.name ≠ "mp4" := by
  induction l with
  | nil => simp [findMp4MuxerLoop]
  | cons a l ih =>
    by_cases ha : a.name = "mp4"
    · simp only [findMp4MuxerLoop, ha, ne_eq, not_true_eq_false, if_false, Option.some.injEq]
      constructor
      · rintro rfl
        exact ⟨[], l, rfl, ha, by simp⟩
      · rintro ⟨before, after, hl, _, hb⟩
        cases before with
        | nil =>
          simp at hl
          exact hl.1
        | cons b before =>
          simp at hl
          exact absurd (hl.1 ▸ ha) (hb b (by simp))
    · simp only [findMp4MuxerLoop, ha, ne_eq, not_false_eq_true, if_true, ih]
      constructor
      · rintro ⟨before, after, hl, hf, hb⟩
        refine ⟨a :: before, after, by simp [hl], hf, ?_⟩
        intro g hg
        rcases List.mem_cons.mp hg with rfl | hg
        · exact ha
        · exact hb g hg
      · rintro ⟨before, after, hl, hf, hb⟩
        cases before with
        | nil =>
          simp at hl
          exact absurd (hl.1 ▸ hf) ha
        | cons b before =>
          simp at hl
          exact ⟨before, after, hl.2, hf, fun g hg => hb g (by simp [hg])⟩

/-- C9: over any finite registry, `findMp4Muxer` (a total function) returns
    null exactly when no registered format is named `mp4`, and otherwise
    returns the first format in iteration order whose name is `mp4`: every
    format it returns is named `mp4` and is preceded only by formats with
    other names, and every such format is the one returned. -/
theorem findMp4Muxer_first_mp4 (muxers : List AVOutputFormat) :
    (findMp4Muxer muxers = none ↔ ∀ f ∈ muxers, f.name ≠ "mp4") ∧
    (∀ f, findMp4Muxer muxers = some f ↔
      ∃ before after, muxers = before ++ f :: after ∧ f.name = "mp4" ∧
        ∀ g ∈ before, g.name ≠ "mp4") :=
  ⟨findMp4MuxerLoop_none muxers, findMp4MuxerLoop_some muxers⟩

/-- The registry `exampleMuxers` has two formats named `mp4`; the first is returned. -/
theorem findMp4Muxer_first_mp4_witness :
    findMp4Muxer exampleMuxers = some { name := "mp4", long_name := "MP4 (MPEG-4 Part 14)" } :=
  ((findMp4Muxer_first_mp4 exampleMuxers).2 _).mpr
    ⟨[{ name := "matroska", long_name := "Matroska" }],
     [{ name := "mp4", long_name := "a later format of the same name" }],
     rfl, rfl, by decide⟩

/-! ## Time base converter -/

theorem wrapInt64_of_range {x : Int} (h1 : -2 ^ 63 ≤ x) (h2 : x < 2 ^ 63) : wrapInt64 x = x := by
  unfold wrapInt64
  rw [Int.emod_eq_of_lt (by omega) (by omega)]
  omega

theorem divRoundNearAwayFromZero_mono {d : Int} (hd : 0 < d) {n1 n2 : Int} (h : n1 ≤ n2) :
    divRoundNearAwayFromZero n1 d ≤ divRoundNearAwayFromZero n2 d := by
  have hd2 : 0 ≤ d / 2 := Int.ediv_nonneg hd.le (by decide)
  unfold divRoundNearAwayFromZero
  by_cases h1 : 0 ≤ n1
  · have h2 : 0 ≤ n2 := le_trans h1 h
    rw [if_pos h1, if_pos h2]
    exact Int.ediv_le_ediv hd (by omega)
  · by_cases h2 : 0 ≤ n2
    · rw [if_neg h1, if_pos h2]
      have a1 : 0 ≤ (-n1 + d / 2) / d := Int.ediv_nonneg (by omega) hd.le
      have a2 : 0 ≤ (n2 + d / 2) / d := Int.ediv_nonneg (by omega) hd.le
      omega
    · rw [if_neg h1, if_neg h2]
      have := Int.ediv_le_ediv hd (show -n2 + d / 2 ≤ -n1 + d / 2 by omega)
      omega

/-- The value computed by `divRoundNearAwayFromZero` is a nearest integer to `n / d`. -/
theorem divRoundNearAwayFromZero_nearest {d : Int} (hd : 0 < d) (n : Int) :
    2 * |n - d * divRoundNearAwayFromZero n d| ≤ d := by
  unfold divRoundNearAwayFromZero
  by_cases h1 : 0 ≤ n
  · rw [if_pos h1]
    have e := Int.ediv_add_emod (n + d / 2) d
    have r0 := Int.emod_nonneg (n + d / 2) hd.ne'
    have r1 := Int.emod_lt_of_pos (n + d / 2) hd
    rw [abs_eq_max_neg]
    simp only [max_def]
    split <;> omega
  · rw [if_neg h1]
    have e := Int.ediv_add_emod (-n + d / 2) d
    have r0 := Int.emod_nonneg (-n + d / 2) hd.ne'
    have r1 := Int.emod_lt_of_pos (-n + d / 2) hd
    rw [abs_eq_max_neg]
    simp only [max_def, mul_neg]
    split <;> omega

theorem rescaleExact_mono (dst : AVRational) (hn : 0 < dst.num) (hd : 0 < dst.den)
    {t1 t2 : Int} (h : t1 ≤ t2) :
    rescaleExact t1 SCRCPY_TIME_BASE dst ≤ rescaleExact t2 SCRCPY_TIME_BASE dst := by
  unfold rescaleExact
  apply divRoundNearAwayFromZero_mono
  · simp only [SCRCPY_TIME_BASE]
    omega
  · apply Int.mul_le_mul_of_nonneg_right h
    simp only [SCRCPY_TIME_BASE]
    omega

/-- The state `exampleHeaderWritten` is the one a successful first `write` gives. -/
theorem exampleHeaderWritten_eq :
    Recorder.write writeOk examplePacket exampleOpened =
      .ok (true, av_packet_rescale_ts examplePacket SCRCPY_TIME_BASE { num := 1, den := 90000 },
        exampleHeaderWritten) :=
  rfl

theorem recorderRescalePacket_live (packet : AVPacket) (s : State) (i : Nat)
    (ctx : AVFormatContext) (ostream : AVStream) (rest : List AVStream)
    (hp : s.m_formatCtx = some i) (hc : s.heap[i]? = some { obj := ctx, freed := false })
    (hs : ctx.streams = ostream :: rest) :
    Recorder.recorderRescalePacket packet s =
      .ok (av_packet_rescale_ts packet SCRCPY_TIME_BASE ostream.time_base) := by
  simp [Recorder.recorderRescalePacket, hp, derefCtx, hc, hs, bind, Except.bind, pure,
    Except.pure]

/-- C8: the rescale that `write` applies to the timestamps of a packet, from
    `SCRCPY_TIME_BASE` (1/1000000) to a destination time base `dst` with
    positive numerator and denominator, rounding to nearest with ties away
    from zero, is monotone: for source timestamps `t1 <= t2` whose rescaled
    values fit 64 bits, `rescale(t1) <= rescale(t2)`; and on every session
    whose track 0 declares the time base `dst`, `recorderRescalePacket`
    returns packets whose presentation timestamps are these rescaled values,
    in the same order. -/
theorem rescale_monotone (dst : AVRational) (t1 t2 : Int)
    (hn : 0 < dst.num) (hd : 0 < dst.den) (h : t1 ≤ t2)
    (h1 : -2 ^ 63 ≤ rescaleExact t1 SCRCPY_TIME_BASE dst ∧
      rescaleExact t1 SCRCPY_TIME_BASE dst < 2 ^ 63)
    (h2 : -2 ^ 63 ≤ rescaleExact t2 SCRCPY_TIME_BASE dst ∧
      rescaleExact t2 SCRCPY_TIME_BASE dst < 2 ^ 63) :
    av_rescale_q t1 SCRCPY_TIME_BASE dst ≤ av_rescale_q t2 SCRCPY_TIME_BASE dst ∧
    ∀ (s : State) (i : Nat) (ctx : AVFormatContext) (ostream : AVStream)
      (rest : List AVStream) (p1 p2 : AVPacket),
      s.m_formatCtx = some i → s.heap[i]? = some { obj := ctx, freed := false } →
      ctx.streams = ostream :: rest → ostream.time_base = dst →
      p1.pts = t1 → p2.pts = t2 →
      ∃ q1 q2, Recorder.recorderRescalePacket p1 s = .ok q1 ∧
        Recorder.recorderRescalePacket p2 s = .ok q2 ∧
        q1.pts = av_rescale_q t1 SCRCPY_TIME_BASE dst ∧
        q2.pts = av_rescale_q t2 SCRCPY_TIME_BASE dst ∧
        q1.pts ≤ q2.pts := by
  have key : av_rescale_q t1 SCRCPY_TIME_BASE dst ≤ av_rescale_q t2 SCRCPY_TIME_BASE dst := by
    unfold av_rescale_q
    rw [wrapInt64_of_range h1.1 h1.2, wrapInt64_of_range h2.1 h2.2]
    exact rescaleExact_mono dst hn hd h
  refine ⟨key, ?_⟩
  intro s i ctx ostream rest p1 p2 hp hc hs htb hp1 hp2
  refine ⟨_, _, recorderRescalePacket_live p1 s i ctx ostream rest hp hc hs,
    recorderRescalePacket_live p2 s i ctx ostream rest hp hc hs, ?_, ?_, ?_⟩
  · simp [av_packet_rescale_ts, htb, hp1]
  · simp [av_packet_rescale_ts, htb, hp2]
  · simpa [av_packet_rescale_ts, htb, hp1, hp2] using key

/-- Ties are resolved away from zero: 5/10 rounds to 1 and -5/10 to -1, 4/10 to 0. -/
theorem rescaleExact_ties :
    rescaleExact 5 SCRCPY_TIME_BASE { num := 1, den := 100000 } = 1 ∧
    rescaleExact (-5) SCRCPY_TIME_BASE { num := 1, den := 100000 } = -1 ∧
    rescaleExact (-4) SCRCPY_TIME_BASE { num := 1, den := 100000 } = 0 := by
  decide

/-- At 30 frames per second towards a 1/90000 time base: 0 and 33000 microseconds
    become 0 and 2970 ticks, as primitives and on the session whose header
    is written. -/
theorem rescale_monotone_witness :
    av_rescale_q 0 SCRCPY_TIME_BASE { num := 1, den := 90000 } = 0 ∧
    av_rescale_q 33000 SCRCPY_TIME_BASE { num := 1, den := 90000 } = 2970 ∧
    av_rescale_q 0 SCRCPY_TIME_BASE { num := 1, den := 90000 } ≤
      av_rescale_q 33000 SCRCPY_TIME_BASE { num := 1, den := 90000 } ∧
    ∃ q1 q2, Recorder.recorderRescalePacket examplePacket exampleHeaderWritten = .ok q1 ∧
      Recorder.recorderRescalePacket { examplePacket with pts := 33000 } exampleHeaderWritten =
        .ok q2 ∧
      q1.pts = av_rescale_q 0 SCRCPY_TIME_BASE { num := 1, den := 90000 } ∧
      q2.pts = av_rescale_q 33000 SCRCPY_TIME_BASE { num := 1, den := 90000 } ∧
      q1.pts ≤ q2.pts :=
  have w := rescale_monotone { num := 1, den := 90000 } 0 33000 (by decide) (by decide)
    (by decide) (by decide) (by decide)
  ⟨by decide, by decide, w.1,
    w.2 exampleHeaderWritten 0 _ _ [] examplePacket { examplePacket with pts := 33000 }
      rfl rfl rfl rfl rfl rfl⟩

/-! ## Opening a session -/

theorem open_true_inv {o : OpenOutcome} {codec : AVCodec} {s s' : State}
    (h : Recorder.open o codec s = .ok (true, s')) :
    ∃ mp4, findMp4Muxer s.muxers = some mp4 ∧ o.allocOk = true ∧ o.streamOk = true ∧
      0 ≤ o.avioRet := by
  cases hm : findMp4Muxer s.muxers with
  | none => simp [open_notFound o codec s hm] at h
  | some mp4 =>
    cases ha : o.allocOk with
    | false => simp [open_allocFail o codec s mp4 hm ha] at h
    | true =>
      cases hs : o.streamOk with
      | false => simp [open_streamFail o codec s mp4 hm ha hs] at h
      | true =>
        by_cases hr : o.avioRet < 0
        · simp [open_avioFail o codec s mp4 hm ha hs hr] at h
        · exact ⟨mp4, rfl, rfl, rfl, not_lt.mp hr⟩

/-- C7: when `open(c)` succeeds on a new session whose frame size (w, h) was
    declared with `setFrameSize`, the session's output context is allocated
    and holds exactly one track, whose parameters are media type video, codec
    id of `c`, pixel format planar YUV 4:2:0, width w and height h; the header
    is not written: `m_headerWritten` is false and no header call was made. -/
theorem open_single_video_track (fileName : String) (muxers : List AVOutputFormat)
    (w h : Int) (c : AVCodec) (o : OpenOutcome) (s' : State)
    (hopen : Recorder.open o c
      (Recorder.setFrameSize { width := w, height := h } (Recorder.new fileName muxers)) =
        .ok (true, s')) :
    ∃ i ctx track, s'.m_formatCtx = some i ∧
      s'.heap[i]? = some { obj := ctx, freed := false } ∧
      ctx.streams = [track] ∧
      track.codecpar.codec_type = .AVMEDIA_TYPE_VIDEO ∧
      track.codecpar.codec_id = c.id ∧
      track.codecpar.format = .AV_PIX_FMT_YUV420P ∧
      track.codecpar.width = w ∧
      track.codecpar.height = h ∧
      s'.m_headerWritten = false ∧
      headerCalls s'.trace = 0 := by
  obtain ⟨mp4, hm, ha, hs, hr⟩ := open_true_inv hopen
  rw [open_success o c _ mp4 hm ha hs hr] at hopen
  simp only [Except.ok.injEq, Prod.mk.injEq, true_and] at hopen
  subst hopen
  refine ⟨0, _, _, rfl, rfl, rfl, rfl, rfl, rfl, rfl, rfl, rfl, ?_⟩
  simp [Recorder.setFrameSize, Recorder.new, headerCalls, isHeaderCall]

/-- The session of 1280x720 opened for H.264 has one video track of that size. -/
theorem open_single_video_track_witness :
    Recorder.open openOk h264 exampleSession = .ok (true, exampleOpened) ∧
    ∃ i ctx track, exampleOpened.m_formatCtx = some i ∧
      exampleOpened.heap[i]? = some { obj := ctx, freed := false } ∧
      ctx.streams = [track] ∧
      track.codecpar.codec_type = .AVMEDIA_TYPE_VIDEO ∧
      track.codecpar.codec_id = 27 ∧
      track.codecpar.format = .AV_PIX_FMT_YUV420P ∧
      track.codecpar.width = 1280 ∧
      track.codecpar.height = 720 ∧
      exampleOpened.m_headerWritten = false ∧
      headerCalls exampleOpened.trace = 0 :=
  ⟨rfl, open_single_video_track "out.mp4" exampleMuxers 1280 720 h264 openOk exampleOpened rfl⟩

/-- C5: on a session that holds no output context, whenever `open` fails (no
    format named `mp4`, or the allocation of the context, the creation of the
    track or the opening of the byte-sink fails) it returns false, the session
    holds no output context afterwards, every context allocated during the
    call has been freed by exactly one call and is released, and no context
    is left allocated that was not before; when the format is not found the
    state is unchanged, so no context is allocated and no byte-sink opened. -/
theorem open_failure_releases (o : OpenOutcome) (codec : AVCodec) (s : State)
    (hs : s.m_formatCtx = none)
    (hfail : findMp4Muxer s.muxers = none ∨ o.allocOk = false ∨ o.streamOk = false ∨
      o.avioRet < 0) :
    ∃ s' evs, Recorder.open o codec s = .ok (false, s') ∧
      s'.m_formatCtx = none ∧
      s'.trace = s.trace ++ evs ∧
      (∀ p, Event.avformat_alloc_context (some p) ∈ evs →
        evs.count (Event.avformat_free_context p) = 1 ∧
        ∃ c, s'.heap[p]? = some c ∧ c.freed = true) ∧
      (∀ c ∈ s'.heap, c.freed = false → c ∈ s.heap) ∧
      (findMp4Muxer s.muxers = none → s' = s ∧ evs = []) := by
  cases hm : findMp4Muxer s.muxers with
  | none =>
    refine ⟨s, [], open_notFound o codec s hm, hs, by simp, by simp, fun c hc _ => hc, ?_⟩
    intro _
    exact ⟨rfl, rfl⟩
  | some mp4 =>
    cases ha : o.allocOk with
    | false =>
      refine ⟨_, [.avformat_alloc_context none], open_allocFail o codec s mp4 hm ha, rfl, rfl,
        by simp, fun c hc _ => hc, by simp⟩
    | true =>
      cases hst : o.streamOk with
      | false =>
        refine ⟨_, _, open_streamFail o codec s mp4 hm ha hst, rfl, rfl, ?_, ?_, by simp⟩
        · intro p hp
          simp at hp
          subst hp
          simp [List.count_cons]
        · intro c hc hf
          simp at hc
          rcases hc with hc | rfl
          · exact hc
          · simp at hf
      | true =>
        have hr : o.avioRet < 0 := by
          rcases hfail with h | h | h | h
          · simp [hm] at h
          · simp [ha] at h
          · simp [hst] at h
          · exact h
        refine ⟨_, _, open_avioFail o codec s mp4 hm ha hst hr, rfl, rfl, ?_, ?_, by simp⟩
        · intro p hp
          simp at hp
          subst hp
          simp [List.count_cons]
        · intro c hc hf
          simp at hc
          rcases hc with hc | rfl
          · exact hc
          · simp at hf

/-- A failing byte-sink (`AVERROR(EACCES) = -13`): the context allocated at
    address 0 is freed once and the session holds no context. -/
theorem open_failure_releases_witness :
    ∃ s' evs, Recorder.open { openOk with avioRet := -13 } h264 exampleSession = .ok (false, s') ∧
      s'.m_formatCtx = none ∧
      s'.trace = exampleSession.trace ++ evs ∧
      (∀ p, Event.avformat_alloc_context (some p) ∈ evs →
        evs.count (Event.avformat_free_context p) = 1 ∧
        ∃ c, s'.heap[p]? = some c ∧ c.freed = true) ∧
      (∀ c ∈ s'.heap, c.freed = false → c ∈ exampleSession.heap) ∧
      (findMp4Muxer exampleSession.muxers = none → s' = exampleSession ∧ evs = []) :=
  open_failure_releases { openOk with avioRet := -13 } h264 exampleSession rfl
    (Or.inr (Or.inr (Or.inr (by decide))))

/-! ## Writing the header -/

/-- C2: on a session whose output context is live with an open byte-sink, for
    a first packet with payload `P = packet.data` of size `N = packet.size`
    for which the allocation of the extradata succeeds, `recorderWriteHeader`
    returns, and the context it passes to `avformat_write_header` carries on
    track 0 an extradata buffer equal to `P` with `extradata_size` equal to
    `N`; when the header is written the track keeps that extradata. -/
theorem extradata_is_first_payload (o : WriteOutcome) (packet : AVPacket) (s : State) (i : Nat)
    (ctx : AVFormatContext) (ostream : AVStream) (rest : List AVStream) (url : String)
    (hp : s.m_formatCtx = some i) (hc : s.heap[i]? = some { obj := ctx, freed := false })
    (hs : ctx.streams = ostream :: rest) (hb : ctx.pb = .opened url)
    (hsize : packet.size = packet.data.length) (hm : o.mallocOk = true) :
    ∃ s' arg track0 others later,
      Recorder.recorderWriteHeader o packet s = .ok (decide (0 ≤ o.headerRet), s') ∧
      s'.trace = s.trace ++
        (.av_malloc packet.size true :: .avformat_write_header i arg o.headerRet :: later) ∧
      arg.streams = track0 :: others ∧
      track0.codecpar.extradata = some packet.data ∧
      track0.codecpar.extradata_size = (packet.data.length : Int) ∧
      (0 ≤ o.headerRet →
        ∃ ctx' track0' others', s'.heap[i]? = some { obj := ctx', freed := false } ∧
          ctx'.streams = track0' :: others' ∧
          track0'.codecpar.extradata = some packet.data ∧
          track0'.codecpar.extradata_size = (packet.data.length : Int)) := by
  have hlt := getElem?_lt hc
  have hts : toSizeT packet.size = packet.size := by
    simp [toSizeT, hsize]
  have hfit : toSizeT packet.size ≤ packet.data.length := by
    rw [hts, hsize]
  have htake : List.take (toSizeT packet.size).toNat packet.data = packet.data := by
    rw [hts, hsize]
    simp
  by_cases hr : 0 ≤ o.headerRet
  · have hd : decide (0 ≤ o.headerRet) = true := by simp [hr]
    have e := writeHeader_success o packet s i ctx ostream rest hp hc hs hm hfit hr
    rw [hts] at e
    simp only [hd]
    refine ⟨_, { ctx with streams := withExtradata packet ostream :: rest },
      withExtradata packet ostream, rest, [], e, rfl, rfl, ?_, ?_, ?_⟩
    · simp [withExtradata, htake]
    · simp [withExtradata, hsize]
    · intro _
      refine ⟨{ ctx with
                streams := setTimeBase o.headerTimeBase (withExtradata packet ostream :: rest) },
        { withExtradata packet ostream with time_base := o.headerTimeBase },
        setTimeBase o.headerTimeBase rest, ?_, ?_, ?_, ?_⟩
      · simp only [List.getElem?_set_self hlt]
      · simp [setTimeBase]
      · simp [withExtradata, htake]
      · simp [withExtradata, hsize]
  · have hr' : o.headerRet < 0 := not_le.mp hr
    have hd : decide (0 ≤ o.headerRet) = false := by simp [hr']
    have e := writeHeader_headerFail o packet s i ctx ostream rest url hp hc hs hb hm hfit hr'
    rw [hts] at e
    simp only [hd]
    refine ⟨_, { ctx with streams := withExtradata packet ostream :: rest },
      withExtradata packet ostream, rest, _, e, rfl, rfl, ?_, ?_, ?_⟩
    · simp [withExtradata, htake]
    · simp [withExtradata, hsize]
    · intro h
      exact absurd h hr

/-- The four bytes of `examplePacket` become the extradata of the opened session. -/
theorem extradata_is_first_payload_witness :
    ∃ s' arg track0 others later,
      Recorder.recorderWriteHeader writeOk examplePacket exampleOpened = .ok (true, s') ∧
      s'.trace = exampleOpened.trace ++
        (.av_malloc 4 true :: .avformat_write_header 0 arg 0 :: later) ∧
      arg.streams = track0 :: others ∧
      track0.codecpar.extradata = some [0, 0, 0, 1] ∧
      track0.codecpar.extradata_size = 4 ∧
      (0 ≤ writeOk.headerRet →
        ∃ ctx' track0' others', s'.heap[0]? = some { obj := ctx', freed := false } ∧
          ctx'.streams = track0' :: others' ∧
          track0'.codecpar.extradata = some [0, 0, 0, 1] ∧
          track0'.codecpar.extradata_size = 4) :=
  extradata_is_first_payload writeOk examplePacket exampleOpened 0 _ _ [] "out.mp4"
    rfl rfl rfl rfl rfl rfl

/-- The state of `exampleOpened` after a first `write` in which the allocation
    of the extradata fails. -/
theorem write_mallocFails_eq :
    Recorder.write mallocFails examplePacket exampleOpened =
      .ok (false, examplePacket,
        { exampleOpened with trace := exampleOpened.trace ++ [.av_malloc 4 false] }) :=
  rfl

/-- C6, as stated, fails when the allocation of the extradata fails: `write`
    reports failure, but it makes no call that closes the byte-sink or frees
    the context, and the context is still allocated with its byte-sink open. -/
theorem alloc_failure_releases_nothing :
    ∃ s', Recorder.write mallocFails examplePacket exampleOpened = .ok (false, examplePacket, s') ∧
      s'.heap = exampleOpened.heap ∧
      s'.trace = exampleOpened.trace ++ [.av_malloc 4 false] ∧
      (∃ ctx, s'.heap[0]? = some { obj := ctx, freed := false } ∧ sinkOpen ctx.pb = true) ∧
      Event.avio_close 0 ∉ s'.trace ∧ Event.avformat_free_context 0 ∉ s'.trace :=
  ⟨_, write_mallocFails_eq, rfl, rfl, ⟨_, rfl, rfl⟩, by decide, by decide⟩

/-- C6, amended: when the allocation of the extradata fails in a first `write`
    on a session whose output context is live with an open byte-sink, `write`
    reports failure to its caller, leaves the packet as it is, and releases
    nothing: the state changes only by the `av_malloc` call recorded in the
    trace, so no call closes the byte-sink or frees the context, the session
    still holds the context in `m_formatCtx`, the context is still allocated
    and its byte-sink still open; a `close` that follows releases both, once,
    and resets `m_formatCtx`. -/
theorem alloc_failure_keeps_session (o : WriteOutcome) (packet : AVPacket) (s : State) (i : Nat)
    (ctx : AVFormatContext) (ostream : AVStream) (rest : List AVStream) (url : String)
    (hp : s.m_formatCtx = some i) (hc : s.heap[i]? = some { obj := ctx, freed := false })
    (hs : ctx.streams = ostream :: rest) (hb : ctx.pb = .opened url)
    (hw : s.m_headerWritten = false) (hm : o.mallocOk = false) :
    ∃ s', Recorder.write o packet s = .ok (false, packet, s') ∧
      s' = { s with trace := s.trace ++ [.av_malloc (toSizeT packet.size) false] } ∧
      s'.m_formatCtx = some i ∧
      s'.m_headerWritten = false ∧
      s'.heap = s.heap ∧
      s'.heap[i]? = some { obj := ctx, freed := false } ∧
      sinkOpen ctx.pb = true ∧
      (∀ j, Event.avio_close j ∉ s'.trace.drop s.trace.length) ∧
      (∀ j, Event.avformat_free_context j ∉ s'.trace.drop s.trace.length) ∧
      ∀ r, ∃ s'', Recorder.close r s' = .ok s'' ∧
        s''.m_formatCtx = none ∧
        s''.heap[i]? = some { obj := { ctx with pb := .closed url }, freed := true } ∧
        s''.trace = s'.trace ++
          [.av_write_trailer i r, .avio_close i, .avformat_free_context i] := by
  have hlt := getElem?_lt hc
  refine ⟨_, write_mallocFail o packet s i ctx ostream rest hp hc hs hw hm, rfl, hp, hw, rfl, hc,
    by simp [hb, sinkOpen], ?_, ?_, ?_⟩
  · intro j
    simp
  · intro j
    simp
  · intro r
    refine ⟨_, close_live r _ i ctx url hp hc hb, rfl, ?_, rfl⟩
    simp only [List.getElem?_set_self hlt]

/-- At `exampleOpened`: the failed allocation leaves the session with its context
    at address 0 allocated and the byte-sink of `out.mp4` open; `close` then
    writes the trailer, closes the byte-sink and frees the context. -/
theorem alloc_failure_keeps_session_witness :
    ∃ s', Recorder.write mallocFails examplePacket exampleOpened = .ok (false, examplePacket, s') ∧
      s' = { exampleOpened with trace := exampleOpened.trace ++ [.av_malloc 4 false] } ∧
      s'.m_formatCtx = some 0 ∧
      s'.m_headerWritten = false ∧
      s'.heap = exampleOpened.heap ∧
      (∃ ctx url, s'.heap[0]? = some { obj := ctx, freed := false } ∧
        ctx.pb = .opened url ∧
        ∀ r, ∃ s'', Recorder.close r s' = .ok s'' ∧
          s''.m_formatCtx = none ∧
          s''.heap[0]? = some { obj := { ctx with pb := .closed url }, freed := true } ∧
          s''.trace = s'.trace ++
            [.av_write_trailer 0 r, .avio_close 0, .avformat_free_context 0]) :=
  have w := alloc_failure_keeps_session mallocFails examplePacket exampleOpened 0 _ _ []
    "out.mp4" rfl rfl rfl rfl rfl rfl
  match w with
  | ⟨s', h1, h2, h3, h4, h5, h6, _, _, _, h10⟩ =>
    ⟨s', h1, h2, h3, h4, h5, _, "out.mp4", h6, rfl, h10⟩

/-! ## Closing a session -/

/-- C3 at a concrete input: after `open` succeeds and the header is rejected in
    the first `write`, that `write` returns false with the byte-sink closed
    and the context freed, but `m_formatCtx` is not reset, so `close` is not a
    no-op: it passes the null test of line 92 and calls `av_write_trailer` on
    the freed context. -/
theorem close_after_header_failure :
    Recorder.open openOk h264 exampleSession = .ok (true, exampleOpened) ∧
    Recorder.write headerRejected examplePacket exampleOpened =
      .ok (false, examplePacket, exampleHeaderFailed) ∧
    exampleHeaderFailed.m_formatCtx = some 0 ∧
    (∃ ctx, exampleHeaderFailed.heap[0]? = some { obj := ctx, freed := true } ∧
      ctx.pb = .closed "out.mp4") ∧
    Recorder.close 0 exampleHeaderFailed = .error (.useAfterFree "av_write_trailer") ∧
    Recorder.close 0 exampleHeaderFailed ≠ .ok exampleHeaderFailed :=
  ⟨rfl, rfl, rfl, ⟨_, rfl, rfl⟩, rfl, by simp [show Recorder.close 0 exampleHeaderFailed =
    .error (.useAfterFree "av_write_trailer") from rfl]⟩

theorem close_ok_null {r : Int} {s s' : State} (h : Recorder.close r s = .ok s') :
    s'.m_formatCtx = none := by
  rcases close_ok_live h with hn | ⟨i, ctx, hp, hc⟩
  · rw [close_null r s hn] at h
    cases h
    exact hn
  · cases hb : ctx.pb with
    | null =>
      rw [close_nullSink r s i ctx hp hc hb] at h
      cases h
      rfl
    | opened url =>
      rw [close_live r s i ctx url hp hc hb] at h
      cases h
      rfl
    | closed url =>
      rw [close_closedSink r s i ctx url hp hc hb] at h
      cases h

/-- C4: `close` is idempotent.  For every state, two calls in a row give what
    one call gives; whenever a call of `close` returns, the session holds no
    output context and a second call returns the same state, so its trace
    gains no trailer write, no byte-sink close and no context release; and
    `close` on a session with no output context returns the state unchanged. -/
theorem close_idempotent (r1 r2 : Int) (s : State) :
    (Recorder.close r1 s >>= Recorder.close r2) = Recorder.close r1 s ∧
    (∀ s', Recorder.close r1 s = .ok s' →
      s'.m_formatCtx = none ∧ Recorder.close r2 s' = .ok s') ∧
    (s.m_formatCtx = none → Recorder.close r1 s = .ok s) := by
  have key : ∀ s', Recorder.close r1 s = .ok s' →
      s'.m_formatCtx = none ∧ Recorder.close r2 s' = .ok s' := fun s' h =>
    ⟨close_ok_null h, close_null r2 s' (close_ok_null h)⟩
  refine ⟨?_, key, close_null r1 s⟩
  cases h : Recorder.close r1 s with
  | error e => rfl
  | ok s' =>
    show Recorder.close r2 s' = .ok s'
    exact (key s' h).2

/-- Closing the opened session writes the trailer, closes the byte-sink and
    frees the context; closing it again changes nothing. -/
theorem close_idempotent_witness :
    ∃ s', Recorder.close 0 exampleOpened = .ok s' ∧
      s'.trace = exampleOpened.trace ++
        [.av_write_trailer 0 0, .avio_close 0, .avformat_free_context 0] ∧
      s'.m_formatCtx = none ∧ Recorder.close 0 s' = .ok s' :=
  ⟨_, rfl, rfl, (close_idempotent 0 0 exampleOpened).2.1 _ rfl⟩

/-! ## The session as a state machine -/

theorem writeHeader_overread (o : WriteOutcome) (packet : AVPacket) (s : State) (i : Nat)
    (ctx : AVFormatContext) (ostream : AVStream) (rest : List AVStream)
    (hp : s.m_formatCtx = some i) (hc : s.heap[i]? = some { obj := ctx, freed := false })
    (hs : ctx.streams = ostream :: rest) (hm : o.mallocOk = true)
    (hover : (packet.data.length : Int) < toSizeT packet.size) :
    Recorder.recorderWriteHeader o packet s = .error (.outOfBounds "memcpy") := by
  simp [Recorder.recorderWriteHeader, hp, derefCtx, hc, hs, hm, emit, bind, Except.bind, hover]

theorem writeHeader_headerFail_nullSink (o : WriteOutcome) (packet : AVPacket) (s : State)
    (i : Nat) (ctx : AVFormatContext) (ostream : AVStream) (rest : List AVStream)
    (hp : s.m_formatCtx = some i) (hc : s.heap[i]? = some { obj := ctx, freed := false })
    (hs : ctx.streams = ostream :: rest) (hb : ctx.pb = .null)
    (hm : o.mallocOk = true) (hfit : toSizeT packet.size ≤ packet.data.length)
    (hr : o.headerRet < 0) :
    Recorder.recorderWriteHeader o packet s =
      .ok (false,
        { s with
          heap := s.heap.set i
            { obj := { ctx with streams := withExtradata packet ostream :: rest },
              freed := true }
          trace := s.trace ++ [.av_malloc (toSizeT packet.size) true,
            .avformat_write_header i { ctx with streams := withExtradata packet ostream :: rest }
              o.headerRet,
            .free_extradata, .avio_close i, .avformat_free_context i] }) := by
  have hlt := getElem?_lt hc
  simp [Recorder.recorderWriteHeader, hp, derefCtx, hc, hs, hm, hb, emit, storeCtx,
    avformat_write_header, avio_close, avformat_free_context, withExtradata, bind, Except.bind,
    pure, Except.pure, hlt, hr, not_lt.mpr hfit]

theorem writeHeader_headerFail_closedSink (o : WriteOutcome) (packet : AVPacket) (s : State)
    (i : Nat) (ctx : AVFormatContext) (ostream : AVStream) (rest : List AVStream) (url : String)
    (hp : s.m_formatCtx = some i) (hc : s.heap[i]? = some { obj := ctx, freed := false })
    (hs : ctx.streams = ostream :: rest) (hb : ctx.pb = .closed url)
    (hm : o.mallocOk = true) (hfit : toSizeT packet.size ≤ packet.data.length)
    (hr : o.headerRet < 0) :
    Recorder.recorderWriteHeader o packet s = .error (.doubleClose "avio_close") := by
  have hlt := getElem?_lt hc
  simp [Recorder.recorderWriteHeader, hp, derefCtx, hc, hs, hm, hb, emit, storeCtx,
    avformat_write_header, avio_close, avformat_free_context, withExtradata, bind, Except.bind,
    pure, Except.pure, hlt, hr, not_lt.mpr hfit]

/-- Every way in which `write` returns: what it returns, and how the
    header flag, the heap and the trace have changed. -/
theorem write_ok_cases {o : WriteOutcome} {packet : AVPacket} {s : State}
    {r : Bool × AVPacket × State} (h : Recorder.write o packet s = .ok r) :
    ∃ i ctx, s.m_formatCtx = some i ∧ s.heap[i]? = some { obj := ctx, freed := false } ∧
      r.2.2.m_formatCtx = s.m_formatCtx ∧
      ((r.2.2.m_headerWritten = s.m_headerWritten ∧ r.2.2.heap = s.heap ∧
          ∃ e, r.2.2.trace = s.trace ++ [e] ∧ isHeaderCall e = false) ∨
       (s.m_headerWritten = false ∧ r.2.2.m_headerWritten = false ∧ r.1 = false ∧
          o.headerRet < 0 ∧
          (∃ ctx', r.2.2.heap = s.heap.set i { obj := ctx', freed := true } ∧
            sinkOpen ctx'.pb = false) ∧
          ∃ arg, r.2.2.trace = s.trace ++ [.av_malloc (toSizeT packet.size) true,
            .avformat_write_header i arg o.headerRet,
            .free_extradata, .avio_close i, .avformat_free_context i]) ∨
       (s.m_headerWritten = false ∧ r.2.2.m_headerWritten = true ∧ 0 ≤ o.headerRet ∧
          (∃ ctx', r.2.2.heap = s.heap.set i { obj := ctx', freed := false } ∧
            ctx'.pb = ctx.pb) ∧
          ∃ arg p, r.2.2.trace = s.trace ++ [.av_malloc (toSizeT packet.size) true,
            .avformat_write_header i arg o.headerRet, .av_write_frame i p o.frameRet])) := by
  obtain ⟨i, ctx, ostream, rest, hp, hc, hs⟩ := write_ok_live h
  refine ⟨i, ctx, hp, hc, ?_⟩
  rcases Bool.eq_false_or_eq_true s.m_headerWritten with hw | hw
  · rw [write_headerWritten o packet s i ctx ostream rest hp hc hs hw] at h
    cases h
    exact ⟨rfl, Or.inl ⟨rfl, rfl, _, rfl, rfl⟩⟩
  · rcases Bool.eq_false_or_eq_true o.mallocOk with hm | hm
    · have hfit : toSizeT packet.size ≤ packet.data.length := by
        by_contra hover
        have e := writeHeader_overread o packet s i ctx ostream rest hp hc hs hm
          (not_le.mp hover)
        simp [Recorder.write, hw, e, bind, Except.bind] at h
      by_cases hr : 0 ≤ o.headerRet
      · rw [write_headerSuccess o packet s i ctx ostream rest hp hc hs hw hm hfit hr] at h
        cases h
        exact ⟨rfl, Or.inr (Or.inr ⟨hw, rfl, hr, ⟨_, rfl, rfl⟩, _, _, rfl⟩)⟩
      · have hr' : o.headerRet < 0 := not_le.mp hr
        cases hb : ctx.pb with
        | opened url =>
          rw [write_headerFail o packet s i ctx ostream rest url hp hc hs hb hw hm hfit hr'] at h
          cases h
          exact ⟨rfl, Or.inr (Or.inl ⟨hw, hw, rfl, hr', ⟨_, rfl, rfl⟩, _, rfl⟩)⟩
        | null =>
          have e := writeHeader_headerFail_nullSink o packet s i ctx ostream rest hp hc hs hb hm hfit hr'
          simp only [Recorder.write, hw, e, bind, Except.bind, pure, Except.pure] at h
          simp at h
          cases h
          refine ⟨rfl, Or.inr (Or.inl ⟨hw, rfl, rfl, hr', ⟨_, rfl, ?_⟩, _, rfl⟩)⟩
          simp [hb, sinkOpen]
        | closed url =>
          have e := writeHeader_headerFail_closedSink o packet s i ctx ostream rest url hp hc hs
            hb hm hfit hr'
          simp [Recorder.write, hw, e, bind, Except.bind] at h
    · rw [write_mallocFail o packet s i ctx ostream rest hp hc hs hw hm] at h
      cases h
      exact ⟨rfl, Or.inl ⟨rfl, rfl, _, rfl, rfl⟩⟩

/-- Every way in which `open` returns: it always returns, keeps the header
    flag, makes no header call, and only adds to the heap a context that is
    either allocated with its byte-sink open or freed with no byte-sink open. -/
theorem open_ok_cases (o : OpenOutcome) (codec : AVCodec) (s : State) :
    ∃ b s' evs, Recorder.open o codec s = .ok (b, s') ∧
      s'.m_headerWritten = s.m_headerWritten ∧
      s'.trace = s.trace ++ evs ∧ headerCalls evs = 0 ∧
      (s'.heap = s.heap ∨ ∃ c, s'.heap = s.heap ++ [c] ∧ sinkOpen c.obj.pb = !c.freed) := by
  cases hm : findMp4Muxer s.muxers with
  | none => exact ⟨_, _, [], open_notFound o codec s hm, rfl, by simp, rfl, Or.inl rfl⟩
  | some mp4 =>
    cases ha : o.allocOk with
    | false =>
      exact ⟨_, _, _, open_allocFail o codec s mp4 hm ha, rfl, rfl, rfl, Or.inl rfl⟩
    | true =>
      cases hs : o.streamOk with
      | false =>
        exact ⟨_, _, _, open_streamFail o codec s mp4 hm ha hs, rfl, rfl, rfl,
          Or.inr ⟨_, rfl, rfl⟩⟩
      | true =>
        by_cases hr : o.avioRet < 0
        · exact ⟨_, _, _, open_avioFail o codec s mp4 hm ha hs hr, rfl, rfl, rfl,
            Or.inr ⟨_, rfl, rfl⟩⟩
        · exact ⟨_, _, _, open_success o codec s mp4 hm ha hs (not_lt.mp hr), rfl, rfl, rfl,
            Or.inr ⟨_, rfl, rfl⟩⟩

theorem headerSuccesses_le_headerCalls (tr : List Event) :
    headerSuccesses tr ≤ headerCalls tr := by
  unfold headerSuccesses headerCalls
  apply List.countP_mono_left
  intro e _ he
  cases e <;> simp_all [isHeaderSuccess, isHeaderCall]

theorem write_preserves_headerOnce {o : WriteOutcome} {packet : AVPacket} {s : State}
    {r : Bool × AVPacket × State} (h : Recorder.write o packet s = .ok r) (hs : HeaderOnce s) :
    HeaderOnce r.2.2 := by
  obtain ⟨i, ctx, _, _, _, hcase⟩ := write_ok_cases h
  rcases hcase with ⟨hw, _, e, ht, he⟩ | ⟨hw, hw', _, hr, _, arg, ht⟩ |
      ⟨hw, hw', hr, _, arg, p, ht⟩
  · have h0 : isHeaderSuccess e = false := by
      cases e <;> simp_all [isHeaderSuccess, isHeaderCall]
    unfold HeaderOnce at hs ⊢
    rw [ht, hw]
    simpa [headerSuccesses, List.countP_append, List.countP_cons, h0] using hs
  · have h0 := hs.2 hw
    unfold HeaderOnce
    rw [ht]
    simp only [headerSuccesses] at h0 ⊢
    simp [List.countP_append, List.countP_cons, isHeaderSuccess, h0, not_le.mpr hr]
  · have h0 := hs.2 hw
    unfold HeaderOnce
    rw [ht, hw']
    simp only [headerSuccesses] at h0 ⊢
    simp [List.countP_append, List.countP_cons, isHeaderSuccess, h0, hr]

theorem writeAll_preserves_headerOnce (ws : List (WriteOutcome × AVPacket)) (s : State)
    (hs : HeaderOnce s) : HeaderOnce (writeAll ws s) := by
  induction ws generalizing s with
  | nil => exact hs
  | cons w ws ih =>
    obtain ⟨o, packet⟩ := w
    unfold writeAll
    cases h : Recorder.write o packet s with
    | error e => exact hs
    | ok r =>
      obtain ⟨b, p, s1⟩ := r
      exact ih s1 (write_preserves_headerOnce h hs)

/-- C1: in every run that starts from a new session and consists of `open`
    followed by any number of `write` calls, no call of
    `avformat_write_header` has been made when `open` has returned and before
    the first `write`, and whatever the `write` calls and the results of the
    library, at most one call of `avformat_write_header` returns success. -/
theorem header_at_most_once (fileName : String) (muxers : List AVOutputFormat) (size : QSize)
    (o : OpenOutcome) (codec : AVCodec) (ws : List (WriteOutcome × AVPacket)) :
    headerCalls (runSession fileName muxers size o codec []).trace = 0 ∧
    headerSuccesses (runSession fileName muxers size o codec ws).trace ≤ 1 := by
  obtain ⟨b, s1, evs, hopen, hw, ht, hevs, _⟩ :=
    open_ok_cases o codec (Recorder.setFrameSize size (Recorder.new fileName muxers))
  have hcalls : headerCalls s1.trace = 0 := by
    rw [ht]
    simpa [Recorder.setFrameSize, Recorder.new] using hevs
  have hflag : s1.m_headerWritten = false := by
    rw [hw]
    rfl
  have honce : HeaderOnce s1 := by
    have := headerSuccesses_le_headerCalls s1.trace
    exact ⟨by omega, fun _ => by omega⟩
  constructor
  · simp only [runSession, hopen, writeAll]
    exact hcalls
  · simp only [runSession, hopen]
    exact (writeAll_preserves_headerOnce ws s1 honce).1

/-- Two runs from the opened session: when the header is rejected in the first
    `write` there is one header call and no successful one; in two successful
    writes the header is serialized by the first only. -/
theorem header_at_most_once_witness :
    headerCalls (runSession "out.mp4" exampleMuxers { width := 1280, height := 720 } openOk h264
      []).trace = 0 ∧
    headerCalls (runSession "out.mp4" exampleMuxers { width := 1280, height := 720 } openOk h264
      [(headerRejected, examplePacket)]).trace = 1 ∧
    headerSuccesses (runSession "out.mp4" exampleMuxers { width := 1280, height := 720 } openOk
      h264 [(headerRejected, examplePacket)]).trace = 0 ∧
    headerSuccesses (runSession "out.mp4" exampleMuxers { width := 1280, height := 720 } openOk
      h264 [(writeOk, examplePacket), (writeOk, examplePacket)]).trace = 1 ∧
    headerSuccesses (runSession "out.mp4" exampleMuxers { width := 1280, height := 720 } openOk
      h264 [(writeOk, examplePacket), (writeOk, examplePacket)]).trace ≤ 1 :=
  ⟨(header_at_most_once "out.mp4" exampleMuxers { width := 1280, height := 720 } openOk h264
      []).1,
   by decide, by decide, by decide,
   (header_at_most_once "out.mp4" exampleMuxers { width := 1280, height := 720 } openOk h264
      [(writeOk, examplePacket), (writeOk, examplePacket)]).2⟩

theorem forall_mem_set {α : Type} {P : α → Prop} {l : List α} {i : Nat} {a : α}
    (hl : ∀ c ∈ l, P c) (ha : P a) : ∀ c ∈ l.set i a, P c := by
  intro c hc
  rcases List.mem_or_eq_of_mem_set hc with h | rfl
  · exact hl c h
  · exact ha

theorem open_preserves_sink {o : OpenOutcome} {codec : AVCodec} {s s' : State} {b : Bool}
    (h : Recorder.open o codec s = .ok (b, s')) (hs : SinkMatchesContext s) :
    SinkMatchesContext s' := by
  obtain ⟨b1, s1, evs, hopen, _, _, _, hheap⟩ := open_ok_cases o codec s
  rw [hopen] at h
  cases h
  unfold SinkMatchesContext
  rcases hheap with hh | ⟨c, hh, hc⟩
  · rw [hh]
    exact hs
  · rw [hh]
    intro c' hc'
    rcases List.mem_append.mp hc' with h1 | h1
    · exact hs c' h1
    · simp at h1
      subst h1
      exact hc

theorem write_preserves_sink {o : WriteOutcome} {packet : AVPacket} {s : State}
    {r : Bool × AVPacket × State} (h : Recorder.write o packet s = .ok r)
    (hs : SinkMatchesContext s) : SinkMatchesContext r.2.2 := by
  obtain ⟨i, ctx, _, hc, _, hcase⟩ := write_ok_cases h
  have hctx := hs _ (List.getElem?_mem hc)
  unfold SinkMatchesContext
  rcases hcase with ⟨_, hh, _⟩ | ⟨_, _, _, _, ⟨ctx', hh, hb⟩, _⟩ | ⟨_, _, _, ⟨ctx', hh, hb⟩, _⟩
  · rw [hh]
    exact hs
  · rw [hh]
    exact forall_mem_set hs (by simp [hb])
  · rw [hh]
    exact forall_mem_set hs (by simpa [hb] using hctx)

theorem close_preserves_sink {r : Int} {s s' : State} (h : Recorder.close r s = .ok s')
    (hs : SinkMatchesContext s) : SinkMatchesContext s' := by
  rcases close_ok_live h with hn | ⟨i, ctx, hp, hc⟩
  · rw [close_null r s hn] at h
    cases h
    exact hs
  · have hctx := hs _ (List.getElem?_mem hc)
    cases hb : ctx.pb with
    | null => simp [hb, sinkOpen] at hctx
    | closed url => simp [hb, sinkOpen] at hctx
    | opened url =>
      rw [close_live r s i ctx url hp hc hb] at h
      cases h
      exact forall_mem_set hs (by simp [sinkOpen])

/-- C10: in every state in which a session is when a call returns, starting
    from a new session and making `setFrameSize`, `open`, `write` and `close`
    calls with any results of the library calls, every output context is
    allocated if and only if its byte-sink is open; hence the session has an
    allocated context exactly when it has an open byte-sink. -/
theorem sink_open_iff_context_allocated (s : State) (h : Reachable s) :
    (∀ c ∈ s.heap, sinkOpen c.obj.pb = true ↔ c.freed = false) ∧
    ((∃ c ∈ s.heap, sinkOpen c.obj.pb = true) ↔ (∃ c ∈ s.heap, c.freed = false)) := by
  have inv : SinkMatchesContext s := by
    induction h with
    | fresh fileName muxers =>
      intro c hc
      simp [Recorder.new] at hc
    | afterSetFrameSize size _ ih => exact ih
    | afterOpen o codec _ hopen ih => exact open_preserves_sink hopen ih
    | afterWrite o packet _ hwrite ih => exact write_preserves_sink hwrite ih
    | afterClose r _ hclose ih => exact close_preserves_sink hclose ih
  have each : ∀ c ∈ s.heap, sinkOpen c.obj.pb = true ↔ c.freed = false := by
    intro c hc
    have := inv c hc
    cases hf : c.freed <;> simp_all
  refine ⟨each, ?_, ?_⟩
  · rintro ⟨c, hc, h1⟩
    exact ⟨c, hc, (each c hc).mp h1⟩
  · rintro ⟨c, hc, h1⟩
    exact ⟨c, hc, (each c hc).mpr h1⟩

/-- After `open` and a first `write` whose header is rejected, the one context
    of the session is freed and its byte-sink is closed. -/
theorem sink_open_iff_context_allocated_witness :
    Reachable exampleHeaderFailed ∧
    (∀ c ∈ exampleHeaderFailed.heap, sinkOpen c.obj.pb = true ↔ c.freed = false) ∧
    ((∃ c ∈ exampleHeaderFailed.heap, sinkOpen c.obj.pb = true) ↔
      (∃ c ∈ exampleHeaderFailed.heap, c.freed = false)) :=
  have hr : Reachable exampleHeaderFailed :=
    Reachable.afterWrite headerRejected examplePacket
      (Reachable.afterOpen openOk h264
        (Reachable.afterSetFrameSize { width := 1280, height := 720 }
          (Reachable.fresh "out.mp4" exampleMuxers))
        (show Recorder.open openOk h264 exampleSession = .ok (true, exampleOpened) from rfl))
      (show Recorder.write headerRejected examplePacket exampleOpened =
        .ok (false, examplePacket, exampleHeaderFailed) from rfl)
  ⟨hr, sink_open_iff_context_allocated exampleHeaderFailed hr⟩

end QtScrcpy
